import Mathlib

/-!
Shallow embedding of the data-exploration MCP server
(`src/simple_mcp_server.py`) for verification of its specification.

The embedding models the tool dispatcher (`handle_call_tool`), the
guided-analysis session state machine (`handle_start_guided_analysis`,
`handle_continue_analysis` and the global `analysis_session` dict),
the file-existence guards of the per-tool handlers, the IQR outlier
computation of `handle_numeric_exploration`, and the skewness
classification labels.

Conventions of the embedding:
* Python dicts returned to the caller are modelled by the `Json` type.
* The global mutable `analysis_session` dict is modelled by explicit
  state passing: a handler takes the session and returns the new one.
* Python exceptions are modelled with `Except String`: a function that
  can raise returns `Except.error msg`, and every `try/except` block of
  the source becomes a `match` that converts the error into the exact
  error payload built by the corresponding `except` clause.
* pandas floats are modelled as exact rationals (`ℚ`); float formatting
  (`f"\x7bx:.1f\x7d"` and friends), pandas memory accounting and the
  statistical bodies that no claim inspects are abstracted into an
  `Env` record of collaborator functions, quantified over in theorems.
-/

namespace DataExplorationMCP

/-- JSON-like values: the shape of every payload a handler returns
(Python dicts, lists, strings, numbers, booleans and None). -/
inductive Json where
  | str : String → Json
  | num : ℚ → Json
  | bool : Bool → Json
  | null : Json
  | arr : List Json → Json
  | obj : List (String × Json) → Json
  deriving Repr

/-- Field lookup in an object payload (Python `d["key"]` on a dict). -/
def Json.getField? : Json → String → Option Json
  | Json.obj fields, key => fields.lookup key
  | _, _ => none

/-- Whether a payload is an object carrying the given key. -/
def Json.hasField (j : Json) (key : String) : Bool :=
  (j.getField? key).isSome

/-- Whether a payload is an error payload: an object with an "error" field. -/
def Json.isErrorPayload (j : Json) : Bool :=
  j.hasField "error"

/-- pandas column dtypes, as far as the embedded code distinguishes them:
`select_dtypes(include=['number'])` keeps `int64`/`float64`,
`select_dtypes(include=['object'])` keeps `object`, and the
category-narrowing pass converts `object` to `category`. -/
inductive Dtype where
  | int64 : Dtype
  | float64 : Dtype
  | object : Dtype
  | category : Dtype
  deriving Repr, DecidableEq

/-- One named, typed column of a loaded dataframe, with the per-column
aggregates the embedded code reads: `nunique()` and `isnull().sum()`. -/
structure Column where
  name : String
  dtype : Dtype
  nunique : Nat
  nullCount : Nat
  deriving Repr, DecidableEq

/-- An in-memory tabular dataset (a pandas DataFrame): a row count and a
list of columns. -/
structure Dataset where
  nrows : Nat
  cols : List Column
  deriving Repr, DecidableEq

/-- The numeric columns of a dataset: `select_dtypes(include=['number'])`. -/
def Dataset.numericCols (d : Dataset) : List Column :=
  d.cols.filter (fun c => c.dtype == Dtype.int64 || c.dtype == Dtype.float64)

/-- Count of numeric columns. -/
def Dataset.numericColCount (d : Dataset) : Nat :=
  d.numericCols.length

/-- Count of text (`object`) columns. -/
def Dataset.objectColCount (d : Dataset) : Nat :=
  (d.cols.filter (fun c => c.dtype == Dtype.object)).length

/-- Count of `category` columns. -/
def Dataset.categoryColCount (d : Dataset) : Nat :=
  (d.cols.filter (fun c => c.dtype == Dtype.category)).length

/-- Total missing values: `data.isnull().sum().sum()`. -/
def Dataset.totalMissing (d : Dataset) : Nat :=
  (d.cols.map Column.nullCount).sum

/-- Missing-value percentage
`(total_missing / (shape[0] * shape[1])) * 100`. On an empty dataset the
source raises ZeroDivisionError (caught by the handler); the rational
model evaluates the division to 0 there. -/
def Dataset.missingPct (d : Dataset) : ℚ :=
  ((d.totalMissing : ℚ) / ((d.nrows : ℚ) * (d.cols.length : ℚ))) * 100

/-- One entry of the fixed `ANALYSIS_STEPS` table: step number, name,
description, suggested actions and guiding questions. -/
structure AnalysisStep where
  step : Nat
  name : String
  description : String
  actions : List String
  questions : List String
  deriving Repr, DecidableEq

/-- The fixed five-phase guided-analysis workflow table `ANALYSIS_STEPS`
of the source, verbatim. -/
def ANALYSIS_STEPS : List AnalysisStep := [
  { step := 1
    name := "Memory Optimization & Data Profiling"
    description := "Optimize memory usage and understand dataset structure (Production Engineering First)"
    actions := ["optimize_memory", "vectorize_operations", "profile_optimized_data"]
    questions := [
      "What memory optimizations were applied and what cost savings do we see?",
      "How much performance improvement did vectorization provide?",
      "What type of business problem does this optimized data represent?"] },
  { step := 2
    name := "Exploratory Data Analysis"
    description := "Examining distributions, patterns, and relationships"
    actions := ["analyze_distributions", "find_correlations", "detect_outliers"]
    questions := [
      "Which variables show interesting patterns or distributions?",
      "Are there strong correlations we should investigate?",
      "Do you see any outliers that need attention?"] },
  { step := 3
    name := "Business Context Analysis"
    description := "Connecting data patterns to business insights"
    actions := ["identify_kpis", "segment_analysis", "trend_analysis"]
    questions := [
      "What business questions can this data answer?",
      "Are there natural customer/product segments in the data?",
      "What trends or patterns have business implications?"] },
  { step := 4
    name := "Advanced Analytics"
    description := "Statistical testing and deeper analysis"
    actions := ["hypothesis_testing", "predictive_modeling", "optimization_opportunities"]
    questions := [
      "What hypotheses should we test statistically?",
      "Are there opportunities for predictive modeling?",
      "What optimization opportunities do you see?"] },
  { step := 5
    name := "Insights & Recommendations"
    description := "Synthesizing findings into actionable insights"
    actions := ["summarize_insights", "business_recommendations", "next_steps"]
    questions := [
      "What are the top 3 most important findings?",
      "What specific actions should the business take?",
      "What additional analysis would you recommend?"] } ]

/-- Placeholder step for out-of-range indexing; the guarded code only
indexes `ANALYSIS_STEPS` at positions proven in range, where the source
would raise IndexError otherwise. -/
def defaultStep : AnalysisStep :=
  { step := 0, name := "", description := "", actions := [], questions := [] }

/-- The global mutable `analysis_session` dict: the only persistent
state of the server. `current_step` is 0 when no session is active.
The memory fields are `none` until a `start` writes them (the Python
dict lacks those keys until then). -/
structure AnalysisSession where
  current_step : Nat
  data : Option Dataset
  data_profile : Option Json
  analysis_goal : Option String
  findings : List String
  next_questions : List String
  file_path : Option String
  completed_steps : List String
  original_memory : Option ℚ
  optimized_memory : Option ℚ
  memory_reduction : Option ℚ
  deriving Repr

/-- The module-level initial value of `analysis_session`. -/
def initial_analysis_session : AnalysisSession :=
  { current_step := 0
    data := none
    data_profile := none
    analysis_goal := none
    findings := []
    next_questions := []
    file_path := none
    completed_steps := []
    original_memory := none
    optimized_memory := none
    memory_reduction := none }

/-- The value a per-phase analysis function returns:
`\x7b"findings": [...], "analysis": \x7b...\x7d\x7d`. -/
structure StepAnalysis where
  findings : List String
  analysis : Json
  deriving Repr

/-- The argument dict of a tool call, with the keys the embedded
handlers read; a missing key is `none` (Python `args.get(key, default)`). -/
structure ToolArgs where
  file_path : Option String := none
  analysis_goal : Option String := none
  user_response : Option String := none
  focus_area : Option String := none
  method : Option String := none
  deriving Repr

/-- Collaborator functions of the embedded handlers. Each field
abstracts a piece of the source that no claim inspects: filesystem
probing, pandas loading and memory accounting, Python float formatting,
the statistical bodies of the per-tool handlers past their guards, and
the five `perform_*` phase-analysis functions (which can raise:
`Except.error` models the exception). Theorems quantify over the whole
record, so every proved property holds for all behaviours of these. -/
structure Env where
  fileExists : String → Bool
  loadData : String → Except String Dataset
  memUsage : Dataset → ℚ
  buildProfile : Dataset → Json
  fmt1 : ℚ → String
  fmt2 : ℚ → String
  fmtComma : Nat → String
  overviewBody : Dataset → ToolArgs → Except String Json
  numericBody : Dataset → ToolArgs → Except String Json
  skewnessBody : Dataset → ToolArgs → Except String Json
  correlationBody : Dataset → ToolArgs → Except String Json
  performDataDiscovery : Option Dataset → String → String → Except String StepAnalysis
  performExploratoryAnalysis : Option Dataset → String → String → Except String StepAnalysis
  performBusinessAnalysis : Option Dataset → String → String → Except String StepAnalysis
  performAdvancedAnalysis : Option Dataset → String → String → Except String StepAnalysis
  performInsightsSynthesis : Option Dataset → String → String → Except String StepAnalysis

/-- Whether `needle` occurs as a contiguous substring of `haystack`
(Python `needle in haystack` on strings). -/
def listContainsSub (needle : List Char) : List Char → Bool
  | [] => needle.isEmpty
  | c :: rest => needle.isPrefixOf (c :: rest) || listContainsSub needle rest

/-- String form of `listContainsSub`. -/
def strContainsSub (haystack needle : String) : Bool :=
  listContainsSub needle.toList haystack.toList

/-- The business-keyword list of `handle_start_guided_analysis` used to
flag potentially important columns. -/
def businessKeywords : List String :=
  ["id", "revenue", "cost", "profit", "amount", "price", "date", "customer"]

/-- Columns whose lowercased name contains a business keyword
(`handle_start_guided_analysis`, important-column scan). -/
def importantColumns (d : Dataset) : List String :=
  (d.cols.filter (fun c =>
    businessKeywords.any (fun kw => strContainsSub c.name.toLower kw))).map Column.name

/-- The category-narrowing pass applied to one column: an `object`
column whose unique ratio is below 0.5 becomes `category` (flag true
when a conversion happened). On an empty dataset the source raises
ZeroDivisionError; the rational model evaluates the ratio to 0. -/
def optimizeColumn (nrows : Nat) (c : Column) : Column × Bool :=
  if c.dtype == Dtype.object && decide ((c.nunique : ℚ) / (nrows : ℚ) < 1/2) then
    ({ c with dtype := Dtype.category }, true)
  else
    (c, false)

/-- The per-dataset category-narrowing pass of
`handle_start_guided_analysis`: the optimized dataset and the number of
converted columns. -/
def optimizeColumns (d : Dataset) : Dataset × Nat :=
  let processed := d.cols.map (optimizeColumn d.nrows)
  ({ d with cols := processed.map Prod.fst }, (processed.filter Prod.snd).length)

/-- Python `Path(file_path).name`: the last path component. -/
def pathName (file_path : String) : String :=
  (file_path.splitOn "/").getLastD file_path

/-- The initial findings batch built by `handle_start_guided_analysis`
after loading and optimizing the dataset: the fixed optimization and
profile lines, the missing-data line, the optional key-columns line and
the closing readiness line, in source order. -/
def initialFindings (env : Env) (optimized : Dataset) (analysis_goal : String)
    (optimization_count : Nat)
    (original_memory optimized_memory memory_reduction : ℚ) : List String :=
  let base : List String := [
    "🧠 PHASE 1: Memory optimized " ++ toString optimization_count ++
      " columns (" ++ env.fmt1 memory_reduction ++ "% reduction)",
    "💾 Memory usage: " ++ env.fmt1 original_memory ++ "MB → " ++
      env.fmt1 optimized_memory ++ "MB",
    "💰 Estimated monthly savings: $" ++
      env.fmt2 ((original_memory - optimized_memory) * (23/1000) * 2),
    "📊 Dataset: " ++ env.fmtComma optimized.nrows ++ " rows × " ++
      toString optimized.cols.length ++ " columns (OPTIMIZED)",
    "🎯 Analysis goal: " ++ analysis_goal,
    "📈 Optimized composition: " ++ toString optimized.numericColCount ++
      " numeric, " ++ toString optimized.objectColCount ++ " text, " ++
      toString optimized.categoryColCount ++ " category" ]
  let missingLine : List String :=
    if optimized.missingPct > 0 then
      ["⚠️ Missing data: " ++ env.fmt1 optimized.missingPct ++ "% of all values"]
    else
      ["✅ No missing data detected"]
  let important := importantColumns optimized
  let keyLine : List String :=
    if important.isEmpty then
      []
    else
      ["🔍 Key columns identified: " ++ String.intercalate ", " (important.take 5)]
  base ++ missingLine ++ keyLine ++
    ["⚡ READY: Data optimized for high-performance vectorized analysis"]

/-- The error payload every file-taking handler returns on a
nonexistent path. -/
def fileNotFoundJson (file_path : String) : Json :=
  Json.obj [("error", Json.str ("File not found: " ++ file_path))]

/-- Handler of the `start_guided_analysis` tool: guards the file path,
loads and category-narrows the dataset, resets the global session
wholesale and returns the first phase with the initial findings. The
source mutates `analysis_session` in place; the embedding returns the
payload together with the new session value. -/
def handle_start_guided_analysis (env : Env) (args : ToolArgs)
    (session : AnalysisSession) : Json × AnalysisSession :=
  let file_path := args.file_path.getD ""
  let analysis_goal := args.analysis_goal.getD "comprehensive exploration"
  if env.fileExists file_path = false then
    (fileNotFoundJson file_path, session)
  else
    match env.loadData file_path with
    | Except.error e =>
        (Json.obj [("error", Json.str ("Failed to start guided analysis: " ++ e))], session)
    | Except.ok data =>
        let optimized_data := (optimizeColumns data).1
        let optimization_count := (optimizeColumns data).2
        let original_memory := env.memUsage data
        let optimized_memory := env.memUsage optimized_data
        let memory_reduction := (original_memory - optimized_memory) / original_memory * 100
        let findings := initialFindings env optimized_data analysis_goal
          optimization_count original_memory optimized_memory memory_reduction
        let current_step := ANALYSIS_STEPS.getD 0 defaultStep
        let newSession : AnalysisSession :=
          { current_step := 1
            data := some optimized_data
            data_profile := some (env.buildProfile optimized_data)
            analysis_goal := some analysis_goal
            findings := findings
            next_questions := []
            file_path := some file_path
            completed_steps := []
            original_memory := some original_memory
            optimized_memory := some optimized_memory
            memory_reduction := some memory_reduction }
        let result := Json.obj [
          ("status", Json.str "success"),
          ("session_started", Json.bool true),
          ("current_step", Json.obj [
            ("number", Json.num (current_step.step : ℚ)),
            ("name", Json.str current_step.name),
            ("description", Json.str current_step.description)]),
          ("data_overview", Json.obj [
            ("file_name", Json.str (pathName file_path)),
            ("rows", Json.num (data.nrows : ℚ)),
            ("columns", Json.num (data.cols.length : ℚ)),
            ("analysis_goal", Json.str analysis_goal)]),
          ("initial_findings", Json.arr (findings.map Json.str)),
          ("next_questions", Json.arr (current_step.questions.map
            (fun q => Json.str ("🤔 " ++ q)))),
          ("guidance", Json.obj [
            ("what_we_found", Json.str "I've loaded and profiled your dataset. Here are the initial findings."),
            ("what_comes_next", Json.str ("Next, we'll dive into " ++
              current_step.name.toLower ++ ". I have some questions to guide our exploration.")),
            ("how_to_continue", Json.str "Answer any of the questions above, or tell me what aspect interests you most. Use 'continue_analysis' to proceed.")])]
        (result, newSession)

/-- The completion summary `handle_continue_analysis` returns once
`current_step` exceeds the number of phases. -/
def completionSummary (session : AnalysisSession) : Json :=
  Json.obj [
    ("status", Json.str "completed"),
    ("message", Json.str "🎉 Analysis complete! All steps have been finished."),
    ("summary", Json.obj [
      ("completed_steps", Json.arr (session.completed_steps.map Json.str)),
      ("total_findings", Json.num (session.findings.length : ℚ)),
      ("analysis_goal", match session.analysis_goal with
        | some g => Json.str g
        | none => Json.null)])]

/-- The error payload of a `continue_analysis` call with no active
session. -/
def noActiveSessionJson : Json :=
  Json.obj [("error", Json.str "No active analysis session. Please start with 'start_guided_analysis' first.")]

/-- The `if current_step_num == 1 ... elif current_step_num == 5` phase
dispatch of `handle_continue_analysis`; the `Except.ok` fallthrough
models the unreachable `step_analysis = \x7b\x7d` initialisation. -/
def stepDispatch (env : Env) (n : Nat) (data : Option Dataset)
    (user_response focus_area : String) : Except String StepAnalysis :=
  if n == 1 then env.performDataDiscovery data user_response focus_area
  else if n == 2 then env.performExploratoryAnalysis data user_response focus_area
  else if n == 3 then env.performBusinessAnalysis data user_response focus_area
  else if n == 4 then env.performAdvancedAnalysis data user_response focus_area
  else if n == 5 then env.performInsightsSynthesis data user_response focus_area
  else Except.ok { findings := [], analysis := Json.obj [] }

/-- Handler of the `continue_analysis` tool: the guided-session state
machine step. Guards the inactive session, returns the completion
summary at the terminal state, otherwise runs the phase analysis for
the current step, appends its findings, appends the phase name to
`completed_steps`, advances `current_step` and reports progress plus
either the next step or a completion message. -/
def handle_continue_analysis (env : Env) (args : ToolArgs)
    (session : AnalysisSession) : Json × AnalysisSession :=
  if session.current_step == 0 then
    (noActiveSessionJson, session)
  else
    let user_response := args.user_response.getD ""
    let focus_area := args.focus_area.getD ""
    let data := session.data
    let current_step_num := session.current_step
    if current_step_num > ANALYSIS_STEPS.length then
      (completionSummary session, session)
    else
      let current_step := ANALYSIS_STEPS.getD (current_step_num - 1) defaultStep
      match stepDispatch env current_step_num data user_response focus_area with
      | Except.error e =>
          (Json.obj [("error", Json.str ("Failed to continue analysis: " ++ e))], session)
      | Except.ok step_analysis =>
          let session1 : AnalysisSession :=
            { session with
              findings := session.findings ++ step_analysis.findings
              completed_steps := session.completed_steps ++ [current_step.name]
              current_step := session.current_step + 1 }
          let base : List (String × Json) := [
            ("status", Json.str "success"),
            ("step_completed", Json.obj [
              ("number", Json.num (current_step.step : ℚ)),
              ("name", Json.str current_step.name),
              ("user_input", Json.str (if user_response.length > 100 then
                user_response.take 100 ++ "..." else user_response))]),
            ("step_findings", Json.arr (step_analysis.findings.map Json.str)),
            ("step_analysis", step_analysis.analysis),
            ("progress", Json.obj [
              ("completed_steps", Json.num (session1.completed_steps.length : ℚ)),
              ("total_steps", Json.num (ANALYSIS_STEPS.length : ℚ)),
              ("progress_percent", Json.num
                ((session1.completed_steps.length : ℚ) / (ANALYSIS_STEPS.length : ℚ) * 100))])]
          let result :=
            if session1.current_step ≤ ANALYSIS_STEPS.length then
              let next_step := ANALYSIS_STEPS.getD (session1.current_step - 1) defaultStep
              Json.obj (base ++ [
                ("next_step", Json.obj [
                  ("number", Json.num (next_step.step : ℚ)),
                  ("name", Json.str next_step.name),
                  ("description", Json.str next_step.description)]),
                ("next_questions", Json.arr (next_step.questions.map
                  (fun q => Json.str ("🤔 " ++ q)))),
                ("guidance", Json.obj [
                  ("what_we_found", Json.str ("Great insights from " ++ current_step.name ++ "!")),
                  ("what_comes_next", Json.str ("Next: " ++ next_step.name ++ " - " ++ next_step.description)),
                  ("how_to_continue", Json.str "Answer the questions above or tell me what you'd like to explore next.")])])
            else
              Json.obj (base ++ [
                ("completion", Json.obj [
                  ("message", Json.str "🎉 Congratulations! We've completed all analysis steps."),
                  ("summary", Json.str "You now have comprehensive insights from systematic exploratory analysis."),
                  ("next_actions", Json.arr [
                    Json.str "Review the complete findings",
                    Json.str "Create a presentation with 'create_presentation'",
                    Json.str "Optimize memory usage with 'optimize_memory'"])])])
          (result, session1)

/-- The tool names recognised by the `if/elif` chain of
`handle_call_tool`, in chain order (the chain repeats the three
distribution tools at its end; membership is unaffected). -/
def toolNames : List String := [
  "discover_data", "optimize_memory", "dataset_overview",
  "numeric_exploration", "skewness_analysis", "kurtosis_analysis",
  "distribution_shape_analysis", "distribution_checks",
  "correlation_analysis", "scatter_plots", "temporal_analysis",
  "full_exploration_report", "optimized_analysis_workflow",
  "explain_methodology", "start_guided_analysis", "continue_analysis",
  "export_optimized_dataset", "export_vectorized_dataset",
  "advanced_feature_engineering", "performance_benchmarking",
  "ml_readiness_assessment", "executive_dashboard",
  "create_distribution_plots", "create_correlation_heatmap",
  "create_advanced_scatter_matrix", "create_time_series_plots",
  "create_outlier_visualizations", "create_business_intelligence_dashboard"]

/-- The dispatcher `handle_call_tool`: routes a (tool name, args) pair
through the `if/elif` chain to the matching handler, returns the
unknown-tool error payload for a name outside the chain, and converts
any exception a handler raises into the dispatch-boundary error
payload. `run` abstracts the per-tool handler bodies: `run name args`
is what the matched handler returns, `Except.error` a raised
exception. -/
def handle_call_tool (run : String → ToolArgs → Except String Json)
    (name : String) (args : ToolArgs) : Json :=
  let dispatched : Except String Json :=
    if toolNames.contains name then
      run name args
    else
      Except.ok (Json.obj [("error", Json.str ("Unknown tool: " ++ name))])
  match dispatched with
  | Except.ok result => result
  | Except.error e =>
      Json.obj [
        ("error", Json.str ("Tool execution failed: " ++ e)),
        ("tool", Json.str name)]

/-- Handler of `dataset_overview` up to its guards: the file-existence
check precedes the `try` block that loads the data and computes the
overview (body abstracted as `env.overviewBody`); an exception inside
the `try` becomes the handler's own error payload. -/
def handle_dataset_overview (env : Env) (args : ToolArgs) : Json :=
  let file_path := args.file_path.getD ""
  if env.fileExists file_path = false then
    fileNotFoundJson file_path
  else
    match (env.loadData file_path).bind (fun data => env.overviewBody data args) with
    | Except.error e =>
        Json.obj [("error", Json.str ("Failed to generate dataset overview: " ++ e))]
    | Except.ok result => result

/-- Handler of `numeric_exploration` up to its guards, body abstracted
as `env.numericBody` (its per-column outlier computation is embedded
separately as `numericOutlierInfo`). -/
def handle_numeric_exploration (env : Env) (args : ToolArgs) : Json :=
  let file_path := args.file_path.getD ""
  if env.fileExists file_path = false then
    fileNotFoundJson file_path
  else
    match (env.loadData file_path).bind (fun data => env.numericBody data args) with
    | Except.error e =>
        Json.obj [("error", Json.str ("Failed to perform numeric exploration: " ++ e))]
    | Except.ok result => result

/-- Handler of `skewness_analysis` up to its guards, body abstracted as
`env.skewnessBody` (its classification labels are embedded separately
as `skewnessSymmetryLabel`). -/
def handle_skewness_analysis (env : Env) (args : ToolArgs) : Json :=
  let file_path := args.file_path.getD ""
  if env.fileExists file_path = false then
    fileNotFoundJson file_path
  else
    match (env.loadData file_path).bind (fun data => env.skewnessBody data args) with
    | Except.error e =>
        Json.obj [("error", Json.str ("Failed to perform skewness analysis: " ++ e))]
    | Except.ok result => result

/-- Handler of `correlation_analysis`: file guard, then inside the
`try` block the numeric-column-count guard, then the correlation body
(abstracted as `env.correlationBody`). -/
def handle_correlation_analysis (env : Env) (args : ToolArgs) : Json :=
  let file_path := args.file_path.getD ""
  if env.fileExists file_path = false then
    fileNotFoundJson file_path
  else
    match (env.loadData file_path).bind (fun data =>
        if data.numericCols.length < 2 then
          Except.ok (Json.obj [("error", Json.str "Need at least 2 numeric columns for correlation analysis")])
        else
          env.correlationBody data args) with
    | Except.error e =>
        Json.obj [("error", Json.str ("Failed to perform correlation analysis: " ++ e))]
    | Except.ok result => result

/-- pandas `Series.quantile(q)` with the default linear interpolation:
on the ascending sort of the values, position `h = q * (n - 1)`, result
`x[floor h] + (h - floor h) * (x[floor h + 1] - x[floor h])`. The
source only applies it to nonempty series (`len(series) == 0` columns
are skipped); on an empty list the model returns 0 where pandas
returns NaN. -/
def seriesQuantile (xs : List ℚ) (q : ℚ) : ℚ :=
  let sorted := xs.insertionSort (fun a b => a ≤ b)
  let n := sorted.length
  let h : ℚ := q * ((n : ℚ) - 1)
  let i : Nat := (Int.floor h).toNat
  let lo := sorted.getD i 0
  let hi := sorted.getD (i + 1) lo
  lo + (h - (i : ℚ)) * (hi - lo)

/-- First quartile `series.quantile(0.25)`. -/
def seriesQ1 (xs : List ℚ) : ℚ := seriesQuantile xs (1/4)

/-- Third quartile `series.quantile(0.75)`. -/
def seriesQ3 (xs : List ℚ) : ℚ := seriesQuantile xs (3/4)

/-- The IQR lower outlier bound `Q1 - 1.5 * IQR`. -/
def iqrLowerBound (xs : List ℚ) : ℚ :=
  seriesQ1 xs - 1.5 * (seriesQ3 xs - seriesQ1 xs)

/-- The IQR upper outlier bound `Q3 + 1.5 * IQR`. -/
def iqrUpperBound (xs : List ℚ) : ℚ :=
  seriesQ3 xs + 1.5 * (seriesQ3 xs - seriesQ1 xs)

/-- The outlier filter of `handle_numeric_exploration`:
`series[(series < lower_bound) | (series > upper_bound)]`. -/
def iqrOutliers (xs : List ℚ) : List ℚ :=
  xs.filter (fun v => decide (v < iqrLowerBound xs) || decide (v > iqrUpperBound xs))

/-- The `outlier_info` dict of `handle_numeric_exploration`: count,
percentage, both bounds, and the first 10 outlier values. The source
rounds the percentage to two decimals for display; the model keeps the
exact rational. -/
structure OutlierInfo where
  outlier_count : Nat
  outlier_percentage : ℚ
  lower_bound : ℚ
  upper_bound : ℚ
  outlier_values : List ℚ
  deriving Repr, DecidableEq

/-- The per-column IQR outlier analysis of `handle_numeric_exploration`
on a (non-null) numeric series. -/
def numericOutlierInfo (xs : List ℚ) : OutlierInfo :=
  { outlier_count := (iqrOutliers xs).length
    outlier_percentage := ((iqrOutliers xs).length : ℚ) / (xs.length : ℚ) * 100
    lower_bound := iqrLowerBound xs
    upper_bound := iqrUpperBound xs
    outlier_values := (iqrOutliers xs).take 10 }

/-- The `interpretation.distribution` label of
`handle_numeric_exploration`: `"Highly skewed" if abs(skew) > 1 else
"Moderately skewed" if abs(skew) > 0.5 else "Approximately normal"`. -/
def numericExplorationDistLabel (skew : ℚ) : String :=
  if |skew| > 1 then "Highly skewed"
  else if |skew| > 0.5 then "Moderately skewed"
  else "Approximately normal"

/-- The `symmetry_assessment` label of `handle_skewness_analysis`:
`"approximately symmetric" if abs(skew) < 0.5, "moderately skewed" if
abs(skew) < 1.0, else "highly skewed"`. -/
def skewnessSymmetryLabel (skew : ℚ) : String :=
  if |skew| < 0.5 then "approximately symmetric"
  else if |skew| < 1.0 then "moderately skewed"
  else "highly skewed"

/-- The `severity_level` companion label of `handle_skewness_analysis`,
assigned by the same branches as `skewnessSymmetryLabel`. -/
def skewnessSeverityLabel (skew : ℚ) : String :=
  if |skew| < 0.5 then "minimal"
  else if |skew| < 1.0 then "moderate"
  else "high"

/-- The `dist_shape` interpretation label of `handle_distribution_checks`:
on `skew = abs(series.skew())`, "approximately normal" if skew < 0.5,
"moderately skewed" if skew < 1, else "highly skewed". -/
def distributionChecksShapeLabel (skew : ℚ) : String :=
  if |skew| < 0.5 then "approximately normal"
  else if |skew| < 1 then "moderately skewed"
  else "highly skewed"

/-- The `symmetry` interpretation label of `handle_distribution_checks`:
"symmetric" if abs(series.skew()) < 0.5 else "asymmetric". -/
def distributionChecksSymmetryLabel (skew : ℚ) : String :=
  if |skew| < 0.5 then "symmetric" else "asymmetric"

/-- The dispatch branch for the registered tool
create_advanced_scatter_matrix calls
handle_create_advanced_scatter_matrix, a name defined nowhere in the
module; in Python, evaluating an undefined name raises NameError, whose
message is modelled here, so this branch raises for every argument
dict. -/
def runUndefinedScatterMatrix : String → ToolArgs → Except String Json :=
  fun _ _ =>
    Except.error "name 'handle_create_advanced_scatter_matrix' is not defined"

/-- Iterated `continue_analysis`: the session after `k` further calls
with the same argument dict. -/
def iterateContinue (env : Env) (args : ToolArgs) :
    Nat → AnalysisSession → AnalysisSession
  | 0, s => s
  | Nat.succ k, s => (handle_continue_analysis env args (iterateContinue env args k s)).2

theorem analysisSteps_length : ANALYSIS_STEPS.length = 5 := rfl

/-- Helper: an active, non-terminal `continue_analysis` call whose phase
analysis succeeds appends the findings, appends the phase name and
increments the step index. -/
theorem continue_advances (env : Env) (args : ToolArgs) (s : AnalysisSession)
    (h1 : s.current_step ≠ 0) (h5 : s.current_step ≤ 5) (sa : StepAnalysis)
    (hsa : stepDispatch env s.current_step s.data (args.user_response.getD "")
      (args.focus_area.getD "") = Except.ok sa) :
    (handle_continue_analysis env args s).2 =
      { s with
        findings := s.findings ++ sa.findings
        completed_steps := s.completed_steps ++
          [(ANALYSIS_STEPS.getD (s.current_step - 1) defaultStep).name]
        current_step := s.current_step + 1 } := by
  have h0 : (s.current_step == 0) = false := by
    simpa using h1
  have hgt : ¬ s.current_step > ANALYSIS_STEPS.length := by
    rw [analysisSteps_length]
    omega
  unfold handle_continue_analysis
  rw [if_neg (by simp [h0]), if_neg hgt, hsa]

/-- Helper: the session written by a successful `start_guided_analysis`
call, in full. -/
theorem start_session_spec (env : Env) (args : ToolArgs) (session : AnalysisSession)
    (d : Dataset)
    (hfile : env.fileExists (args.file_path.getD "") = true)
    (hload : env.loadData (args.file_path.getD "") = Except.ok d) :
    (handle_start_guided_analysis env args session).2 =
      { current_step := 1
        data := some (optimizeColumns d).1
        data_profile := some (env.buildProfile (optimizeColumns d).1)
        analysis_goal := some (args.analysis_goal.getD "comprehensive exploration")
        findings := initialFindings env (optimizeColumns d).1
          (args.analysis_goal.getD "comprehensive exploration") (optimizeColumns d).2
          (env.memUsage d) (env.memUsage (optimizeColumns d).1)
          ((env.memUsage d - env.memUsage (optimizeColumns d).1) / env.memUsage d * 100)
        next_questions := []
        file_path := some (args.file_path.getD "")
        completed_steps := []
        original_memory := some (env.memUsage d)
        optimized_memory := some (env.memUsage (optimizeColumns d).1)
        memory_reduction := some ((env.memUsage d - env.memUsage (optimizeColumns d).1) / env.memUsage d * 100) } := by
  unfold handle_start_guided_analysis
  rw [if_neg (by simp [hfile]), hload]

/-- Sample numeric column for concrete evaluations. -/
def sampleAmount : Column :=
  { name := "amount", dtype := Dtype.float64, nunique := 5, nullCount := 0 }

/-- Sample text column for concrete evaluations. -/
def sampleCategory : Column :=
  { name := "category", dtype := Dtype.object, nunique := 2, nullCount := 0 }

/-- Sample dataset: 5 rows, one numeric and one text column (exactly one
numeric column). -/
def sampleDataset : Dataset :=
  { nrows := 5, cols := [sampleAmount, sampleCategory] }

/-- Sample phase-analysis output. -/
def sampleStep : StepAnalysis :=
  { findings := ["sample finding"], analysis := Json.obj [] }

/-- Sample collaborator record: the file always exists, loading yields
`sampleDataset`, every phase analysis succeeds with `sampleStep`. -/
def sampleEnv : Env :=
  { fileExists := fun _ => true
    loadData := fun _ => Except.ok sampleDataset
    memUsage := fun _ => 1
    buildProfile := fun _ => Json.obj []
    fmt1 := fun _ => "0.0"
    fmt2 := fun _ => "0.00"
    fmtComma := fun n => toString n
    overviewBody := fun _ _ => Except.ok (Json.obj [("status", Json.str "success")])
    numericBody := fun _ _ => Except.ok (Json.obj [("status", Json.str "success")])
    skewnessBody := fun _ _ => Except.ok (Json.obj [("status", Json.str "success")])
    correlationBody := fun _ _ => Except.ok (Json.obj [("status", Json.str "success")])
    performDataDiscovery := fun _ _ _ => Except.ok sampleStep
    performExploratoryAnalysis := fun _ _ _ => Except.ok sampleStep
    performBusinessAnalysis := fun _ _ _ => Except.ok sampleStep
    performAdvancedAnalysis := fun _ _ _ => Except.ok sampleStep
    performInsightsSynthesis := fun _ _ _ => Except.ok sampleStep }

/-- Sample collaborator record whose filesystem probe always fails. -/
def sampleEnvNoFile : Env :=
  { sampleEnv with fileExists := fun _ => false }

/-- C2: for every session state whose current_step index exceeds the
number of phases (5), a continue_analysis call returns the completion
summary and leaves the session unchanged, and a second consecutive call
returns the same completion summary. -/
theorem continue_terminal_idempotence (env : Env) (args : ToolArgs)
    (session : AnalysisSession) (h : session.current_step > 5) :
    handle_continue_analysis env args session = (completionSummary session, session) ∧
    handle_continue_analysis env args (handle_continue_analysis env args session).2 =
      (completionSummary session, session) := by
  have h0 : (session.current_step == 0) = false := by
    simp
    omega
  have hfirst : handle_continue_analysis env args session = (completionSummary session, session) := by
    unfold handle_continue_analysis
    rw [if_neg (by simp [h0]), if_pos (by rw [analysisSteps_length]; omega)]
  refine ⟨hfirst, ?_⟩
  rw [hfirst]
  exact hfirst

/-- Witness for C2 at a concrete terminal session (step index 6). -/
theorem continue_terminal_idempotence_witness :
    ({ initial_analysis_session with current_step := 6 } : AnalysisSession).current_step > 5 ∧
    handle_continue_analysis sampleEnv {}
        { initial_analysis_session with current_step := 6 } =
      (completionSummary { initial_analysis_session with current_step := 6 },
        { initial_analysis_session with current_step := 6 }) :=
  ⟨by decide,
    (continue_terminal_idempotence sampleEnv {}
      { initial_analysis_session with current_step := 6 } (by decide)).1⟩

/-- C4: a continue_analysis call while the session's current_step index
equals 0 (no active session) returns the specific no-active-session
error payload and does not mutate the session, for every argument
mapping. -/
theorem continue_no_active_session (env : Env) (args : ToolArgs)
    (session : AnalysisSession) (h : session.current_step = 0) :
    handle_continue_analysis env args session =
      (Json.obj [("error", Json.str "No active analysis session. Please start with 'start_guided_analysis' first.")],
        session) := by
  unfold handle_continue_analysis
  rw [if_pos (by simp [h])]
  rfl

/-- Witness for C4 at the initial session. -/
theorem continue_no_active_session_witness :
    initial_analysis_session.current_step = 0 ∧
    handle_continue_analysis sampleEnv {} initial_analysis_session =
      (Json.obj [("error", Json.str "No active analysis session. Please start with 'start_guided_analysis' first.")],
        initial_analysis_session) :=
  ⟨rfl, continue_no_active_session sampleEnv {} initial_analysis_session rfl⟩

/-- C1: after a successful start_guided_analysis call and exactly k
subsequent successful continue_analysis calls with k at most the phase
count (5), the session has completed_steps of length k and current_step
index k + 1. Success of the k continue calls is expressed by the phase
analyses never raising (`hok`). -/
theorem session_progression (env : Env) (sargs cargs : ToolArgs)
    (prior : AnalysisSession) (d : Dataset)
    (hfile : env.fileExists (sargs.file_path.getD "") = true)
    (hload : env.loadData (sargs.file_path.getD "") = Except.ok d)
    (hok : ∀ n data u f, ∃ sa, stepDispatch env n data u f = Except.ok sa)
    (k : Nat) (hk : k ≤ 5) :
    (iterateContinue env cargs k
      (handle_start_guided_analysis env sargs prior).2).completed_steps.length = k ∧
    (iterateContinue env cargs k
      (handle_start_guided_analysis env sargs prior).2).current_step = k + 1 := by
  have hstart := start_session_spec env sargs prior d hfile hload
  induction k with
  | zero =>
      rw [iterateContinue, hstart]
      exact ⟨rfl, rfl⟩
  | succ m ih =>
      obtain ⟨hlen, hcur⟩ := ih (by omega)
      obtain ⟨sa, hsa⟩ := hok
        (iterateContinue env cargs m (handle_start_guided_analysis env sargs prior).2).current_step
        (iterateContinue env cargs m (handle_start_guided_analysis env sargs prior).2).data
        (cargs.user_response.getD "") (cargs.focus_area.getD "")
      have hadv := continue_advances env cargs
        (iterateContinue env cargs m (handle_start_guided_analysis env sargs prior).2)
        (by omega) (by omega) sa hsa
      rw [iterateContinue, hadv]
      constructor
      · simp [hlen]
      · simp [hcur]

/-- Witness for C1: with the sample collaborators, after a start and
three successful continues, three steps are completed and the index is
4. -/
theorem session_progression_witness :
    sampleEnv.fileExists ((some "data.csv").getD "") = true ∧
    sampleEnv.loadData ((some "data.csv").getD "") = Except.ok sampleDataset ∧
    (∀ n data u f, ∃ sa, stepDispatch sampleEnv n data u f = Except.ok sa) ∧
    (3 : Nat) ≤ 5 ∧
    ((iterateContinue sampleEnv {} 3
      (handle_start_guided_analysis sampleEnv { file_path := some "data.csv" }
        initial_analysis_session).2).completed_steps.length = 3 ∧
    (iterateContinue sampleEnv {} 3
      (handle_start_guided_analysis sampleEnv { file_path := some "data.csv" }
        initial_analysis_session).2).current_step = 3 + 1) :=
  ⟨rfl, rfl,
    fun n data u f => by
      unfold stepDispatch
      split_ifs <;> exact ⟨_, rfl⟩,
    by norm_num,
    session_progression sampleEnv { file_path := some "data.csv" } {}
      initial_analysis_session sampleDataset rfl rfl
      (fun n data u f => by
        unfold stepDispatch
        split_ifs <;> exact ⟨_, rfl⟩)
      3 (by norm_num)⟩

/-- C3: a successful start_guided_analysis call replaces any prior
session wholesale: afterwards completed_steps is empty, current_step is
1, findings is exactly the new initial findings batch, and the
resulting session does not depend on the prior session at all. -/
theorem start_replaces_session (env : Env) (args : ToolArgs)
    (prior : AnalysisSession) (d : Dataset)
    (hfile : env.fileExists (args.file_path.getD "") = true)
    (hload : env.loadData (args.file_path.getD "") = Except.ok d) :
    (handle_start_guided_analysis env args prior).2.completed_steps = [] ∧
    (handle_start_guided_analysis env args prior).2.current_step = 1 ∧
    (handle_start_guided_analysis env args prior).2.findings =
      initialFindings env (optimizeColumns d).1
        (args.analysis_goal.getD "comprehensive exploration") (optimizeColumns d).2
        (env.memUsage d) (env.memUsage (optimizeColumns d).1)
        ((env.memUsage d - env.memUsage (optimizeColumns d).1) / env.memUsage d * 100) ∧
    (∀ prior2 : AnalysisSession,
      (handle_start_guided_analysis env args prior2).2 =
        (handle_start_guided_analysis env args prior).2) := by
  have hspec := start_session_spec env args prior d hfile hload
  refine ⟨by rw [hspec], by rw [hspec], by rw [hspec], ?_⟩
  intro prior2
  rw [hspec, start_session_spec env args prior2 d hfile hload]

/-- Witness for C3: a prior session advanced to phase 3 is discarded by
a fresh start. -/
theorem start_replaces_session_witness :
    sampleEnv.fileExists ((some "data.csv").getD "") = true ∧
    sampleEnv.loadData ((some "data.csv").getD "") = Except.ok sampleDataset ∧
    ((handle_start_guided_analysis sampleEnv { file_path := some "data.csv" }
        (iterateContinue sampleEnv {} 2
          (handle_start_guided_analysis sampleEnv { file_path := some "data.csv" }
            initial_analysis_session).2)).2.completed_steps = [] ∧
      (handle_start_guided_analysis sampleEnv { file_path := some "data.csv" }
        (iterateContinue sampleEnv {} 2
          (handle_start_guided_analysis sampleEnv { file_path := some "data.csv" }
            initial_analysis_session).2)).2.current_step = 1) := by
  refine ⟨rfl, rfl, ?_⟩
  have h := start_replaces_session sampleEnv { file_path := some "data.csv" }
    (iterateContinue sampleEnv {} 2
      (handle_start_guided_analysis sampleEnv { file_path := some "data.csv" }
        initial_analysis_session).2) sampleDataset rfl rfl
  exact ⟨h.1, h.2.1⟩

/-- C5: for every (tool name, arguments) pair and every handler
behaviour — unknown tool names and raising handlers included —
handle_call_tool returns exactly one payload: either the matched
handler's success payload, or an error payload carrying an "error"
field; a raised handler exception never reaches the caller. -/
theorem dispatcher_totality (run : String → ToolArgs → Except String Json)
    (name : String) (args : ToolArgs) :
    (∃ j, run name args = Except.ok j ∧ handle_call_tool run name args = j) ∨
    (handle_call_tool run name args).isErrorPayload = true := by
  unfold handle_call_tool
  by_cases hmem : toolNames.contains name
  · rw [if_pos hmem]
    cases hrun : run name args with
    | ok j => exact Or.inl ⟨j, rfl, rfl⟩
    | error e => exact Or.inr rfl
  · rw [if_neg hmem]
    exact Or.inr rfl

/-- Helper: each embedded tool handler with a defined body that takes a
file_path argument, called with a path the filesystem probe rejects,
returns exactly the File-not-found error payload — for every loader
behaviour, so before any data is loaded — and in the
start_guided_analysis case leaves the session unchanged. -/
theorem missing_file_guard (env : Env) (args : ToolArgs)
    (session : AnalysisSession)
    (h : env.fileExists (args.file_path.getD "") = false) :
    handle_dataset_overview env args = fileNotFoundJson (args.file_path.getD "") ∧
    handle_numeric_exploration env args = fileNotFoundJson (args.file_path.getD "") ∧
    handle_skewness_analysis env args = fileNotFoundJson (args.file_path.getD "") ∧
    handle_correlation_analysis env args = fileNotFoundJson (args.file_path.getD "") ∧
    handle_start_guided_analysis env args session =
      (fileNotFoundJson (args.file_path.getD ""), session) := by
  refine ⟨?_, ?_, ?_, ?_, ?_⟩
  · unfold handle_dataset_overview
    rw [if_pos h]
  · unfold handle_numeric_exploration
    rw [if_pos h]
  · unfold handle_skewness_analysis
    rw [if_pos h]
  · unfold handle_correlation_analysis
    rw [if_pos h]
  · unfold handle_start_guided_analysis
    rw [if_pos h]

/-- Counterexample to C6: the registered file_path tool
create_advanced_scatter_matrix has no handler definition, so calling it
— with a nonexistent path or any other arguments — raises NameError at
the dispatch branch and returns the dispatcher's Tool-execution-failed
payload, never the File-not-found payload. -/
theorem missing_file_counterexample :
    ("create_advanced_scatter_matrix" ∈ toolNames) ∧
    handle_call_tool runUndefinedScatterMatrix "create_advanced_scatter_matrix"
        { file_path := some "missing.csv" } =
      Json.obj [
        ("error", Json.str "Tool execution failed: name 'handle_create_advanced_scatter_matrix' is not defined"),
        ("tool", Json.str "create_advanced_scatter_matrix")] ∧
    handle_call_tool runUndefinedScatterMatrix "create_advanced_scatter_matrix"
        { file_path := some "missing.csv" } ≠ fileNotFoundJson "missing.csv" := by
  refine ⟨by decide, rfl, ?_⟩
  intro h
  have h2 : (some (Json.str "Tool execution failed: name 'handle_create_advanced_scatter_matrix' is not defined") : Option Json) =
      some (Json.str "File not found: missing.csv") :=
    congrArg (fun j => j.getField? "error") h
  injection h2 with h3
  injection h3 with h4
  exact absurd h4 (by decide)

/-- C6 (amended): every tool taking a file_path argument whose handler
is defined returns exactly the File-not-found payload on a nonexistent
path — for every loader behaviour, so before any data is loaded — and
in the start_guided_analysis case leaves the session unchanged; the one
registered file_path tool without a defined handler,
create_advanced_scatter_matrix, instead raises NameError at dispatch
and every call returns the dispatcher's Tool-execution-failed payload
naming the undefined handler. -/
theorem missing_file_guard_amended (env : Env) (args : ToolArgs)
    (session : AnalysisSession)
    (h : env.fileExists (args.file_path.getD "") = false) :
    handle_dataset_overview env args = fileNotFoundJson (args.file_path.getD "") ∧
    handle_numeric_exploration env args = fileNotFoundJson (args.file_path.getD "") ∧
    handle_skewness_analysis env args = fileNotFoundJson (args.file_path.getD "") ∧
    handle_correlation_analysis env args = fileNotFoundJson (args.file_path.getD "") ∧
    handle_start_guided_analysis env args session =
      (fileNotFoundJson (args.file_path.getD ""), session) ∧
    handle_call_tool runUndefinedScatterMatrix "create_advanced_scatter_matrix" args =
      Json.obj [
        ("error", Json.str "Tool execution failed: name 'handle_create_advanced_scatter_matrix' is not defined"),
        ("tool", Json.str "create_advanced_scatter_matrix")] := by
  have hg := missing_file_guard env args session h
  exact ⟨hg.1, hg.2.1, hg.2.2.1, hg.2.2.2.1, hg.2.2.2.2, rfl⟩

/-- Witness for C6 (amended) with a probe that rejects every path. -/
theorem missing_file_guard_amended_witness :
    sampleEnvNoFile.fileExists ((some "missing.csv").getD "") = false ∧
    handle_dataset_overview sampleEnvNoFile { file_path := some "missing.csv" } =
      fileNotFoundJson "missing.csv" ∧
    handle_start_guided_analysis sampleEnvNoFile { file_path := some "missing.csv" }
        initial_analysis_session =
      (fileNotFoundJson "missing.csv", initial_analysis_session) ∧
    handle_call_tool runUndefinedScatterMatrix "create_advanced_scatter_matrix"
        { file_path := some "missing.csv" } =
      Json.obj [
        ("error", Json.str "Tool execution failed: name 'handle_create_advanced_scatter_matrix' is not defined"),
        ("tool", Json.str "create_advanced_scatter_matrix")] := by
  have h := missing_file_guard_amended sampleEnvNoFile { file_path := some "missing.csv" }
    initial_analysis_session rfl
  exact ⟨rfl, h.1, h.2.2.2.2.1, h.2.2.2.2.2⟩

/-- Counterexample to C7: the claimed inclusive band 0.5 ≤ |skew| ≤ 1.0
for the "moderately skewed" label fails at both boundaries: at
|skew| = 1.0 handle_skewness_analysis labels "highly skewed", and at
|skew| = 0.5 handle_numeric_exploration labels "Approximately
normal". -/
theorem skewness_boundary_counterexample :
    skewnessSymmetryLabel 1 = "highly skewed" ∧
    skewnessSymmetryLabel 1 ≠ "moderately skewed" ∧
    numericExplorationDistLabel (1/2) = "Approximately normal" ∧
    numericExplorationDistLabel (1/2) ≠ "Moderately skewed" := by
  have ha : |(1 : ℚ)| = 1 := abs_one
  have hb : |(1/2 : ℚ)| = 1/2 := abs_of_nonneg (by norm_num)
  have h1 : skewnessSymmetryLabel 1 = "highly skewed" := by
    unfold skewnessSymmetryLabel
    rw [ha, if_neg (by norm_num), if_neg (by norm_num)]
  have h2 : numericExplorationDistLabel (1/2) = "Approximately normal" := by
    unfold numericExplorationDistLabel
    rw [hb, if_neg (by norm_num), if_neg (by norm_num)]
  exact ⟨h1, by rw [h1]; decide, h2, by rw [h2]; decide⟩

/-- C7 (amended): every handler that classifies skewness uses the
thresholds 0.5 and 1.0, but boundary inclusion differs per handler.
handle_skewness_analysis labels "approximately symmetric" iff
|skew| < 0.5, "moderately skewed" iff 0.5 ≤ |skew| < 1.0, "highly
skewed" iff |skew| ≥ 1.0 (the same branches assign the severity
levels); handle_distribution_checks labels "approximately normal",
"moderately skewed", "highly skewed" with those same boundary
conventions (and "symmetric" iff |skew| < 0.5);
handle_numeric_exploration labels "Approximately normal" iff
|skew| ≤ 0.5, "Moderately skewed" iff 0.5 < |skew| ≤ 1.0, "Highly
skewed" iff |skew| > 1.0. (handle_distribution_shape_analysis
classifies shape jointly from skewness and kurtosis and has no pure
skewness band.) -/
theorem skewness_classification (s : ℚ) :
    (|s| < 0.5 → skewnessSymmetryLabel s = "approximately symmetric" ∧
      skewnessSeverityLabel s = "minimal") ∧
    (0.5 ≤ |s| ∧ |s| < 1 → skewnessSymmetryLabel s = "moderately skewed" ∧
      skewnessSeverityLabel s = "moderate") ∧
    (1 ≤ |s| → skewnessSymmetryLabel s = "highly skewed" ∧
      skewnessSeverityLabel s = "high") ∧
    (|s| ≤ 0.5 → numericExplorationDistLabel s = "Approximately normal") ∧
    (0.5 < |s| ∧ |s| ≤ 1 → numericExplorationDistLabel s = "Moderately skewed") ∧
    (1 < |s| → numericExplorationDistLabel s = "Highly skewed") ∧
    (|s| < 0.5 → distributionChecksShapeLabel s = "approximately normal" ∧
      distributionChecksSymmetryLabel s = "symmetric") ∧
    (0.5 ≤ |s| ∧ |s| < 1 → distributionChecksShapeLabel s = "moderately skewed" ∧
      distributionChecksSymmetryLabel s = "asymmetric") ∧
    (1 ≤ |s| → distributionChecksShapeLabel s = "highly skewed" ∧
      distributionChecksSymmetryLabel s = "asymmetric") := by
  have e1 : (1.0 : ℚ) = 1 := by norm_num
  unfold skewnessSymmetryLabel skewnessSeverityLabel numericExplorationDistLabel
    distributionChecksShapeLabel distributionChecksSymmetryLabel
  rw [e1]
  refine ⟨?_, ?_, ?_, ?_, ?_, ?_, ?_, ?_, ?_⟩
  · intro h
    rw [if_pos h, if_pos h]
    exact ⟨rfl, rfl⟩
  · rintro ⟨ha, hb⟩
    rw [if_neg (not_lt.mpr ha), if_pos hb, if_neg (not_lt.mpr ha), if_pos hb]
    exact ⟨rfl, rfl⟩
  · intro h
    have c1 : ¬ |s| < 0.5 := by
      rw [not_lt]
      linarith
    rw [if_neg c1, if_neg (not_lt.mpr h), if_neg c1, if_neg (not_lt.mpr h)]
    exact ⟨rfl, rfl⟩
  · intro h
    have c1 : ¬ (1 : ℚ) < |s| := by
      rw [not_lt]
      linarith
    rw [if_neg c1, if_neg (not_lt.mpr h)]
  · rintro ⟨ha, hb⟩
    rw [if_neg (not_lt.mpr hb), if_pos ha]
  · intro h
    rw [if_pos h]
  · intro h
    rw [if_pos h, if_pos h]
    exact ⟨rfl, rfl⟩
  · rintro ⟨ha, hb⟩
    rw [if_neg (not_lt.mpr ha), if_pos hb, if_neg (not_lt.mpr ha)]
    exact ⟨rfl, rfl⟩
  · intro h
    have c1 : ¬ |s| < 0.5 := by
      rw [not_lt]
      linarith
    rw [if_neg c1, if_neg (not_lt.mpr h), if_neg c1]
    exact ⟨rfl, rfl⟩

/-- Witness for C7 (amended) at |skew| = 0.75 in all three handlers
and, via the skewness_analysis and distribution_checks conjuncts, at
the boundary |skew| = 1. -/
theorem skewness_classification_witness :
    ((0.5 : ℚ) ≤ |(3/4 : ℚ)| ∧ |(3/4 : ℚ)| < 1) ∧
    (skewnessSymmetryLabel (3/4) = "moderately skewed" ∧
      skewnessSeverityLabel (3/4) = "moderate") ∧
    ((1 : ℚ) ≤ |(1 : ℚ)|) ∧
    (skewnessSymmetryLabel 1 = "highly skewed" ∧ skewnessSeverityLabel 1 = "high") ∧
    ((0.5 : ℚ) < |(3/4 : ℚ)| ∧ |(3/4 : ℚ)| ≤ 1) ∧
    numericExplorationDistLabel (3/4) = "Moderately skewed" ∧
    (distributionChecksShapeLabel (3/4) = "moderately skewed" ∧
      distributionChecksSymmetryLabel (3/4) = "asymmetric") ∧
    (distributionChecksShapeLabel 1 = "highly skewed" ∧
      distributionChecksSymmetryLabel 1 = "asymmetric") := by
  have habs : |(3/4 : ℚ)| = 3/4 := abs_of_nonneg (by norm_num)
  have habs1 : |(1 : ℚ)| = 1 := abs_one
  refine ⟨⟨by rw [habs]; norm_num, by rw [habs]; norm_num⟩,
    (skewness_classification (3/4)).2.1 ⟨by rw [habs]; norm_num, by rw [habs]; norm_num⟩,
    by rw [habs1],
    (skewness_classification 1).2.2.1 (by rw [habs1]),
    ⟨by rw [habs]; norm_num, by rw [habs]; norm_num⟩,
    (skewness_classification (3/4)).2.2.2.2.1 ⟨by rw [habs]; norm_num, by rw [habs]; norm_num⟩,
    (skewness_classification (3/4)).2.2.2.2.2.2.2.1 ⟨by rw [habs]; norm_num, by rw [habs]; norm_num⟩,
    (skewness_classification 1).2.2.2.2.2.2.2.2 (by rw [habs1])⟩

/-- Session in phase 1 holding the sample dataset, as written by a
start call would leave it (only the fields continue_analysis reads
matter). -/
def sessionAtStep1 : AnalysisSession :=
  { initial_analysis_session with current_step := 1, data := some sampleDataset }

/-- Counterexample to C8: a continue_analysis call with an active
session and the user_response parameter missing does not return an
error payload; it performs the phase analysis, reports success and
advances the session to step 2. -/
theorem missing_user_response_counterexample :
    (handle_continue_analysis sampleEnv {} sessionAtStep1).1.isErrorPayload = false ∧
    (handle_continue_analysis sampleEnv {} sessionAtStep1).1.getField? "status" =
      some (Json.str "success") ∧
    (handle_continue_analysis sampleEnv {} sessionAtStep1).2.current_step = 2 := by
  refine ⟨?_, ?_, ?_⟩ <;> rfl

/-- C8 (amended): a continue_analysis call whose argument mapping lacks
user_response behaves exactly as if user_response were the empty
string: the handler substitutes the default "" and proceeds with the
phase analysis and session advancement rather than returning an
error. -/
theorem missing_user_response_defaults (env : Env) (args : ToolArgs)
    (session : AnalysisSession) (h : args.user_response = none) :
    handle_continue_analysis env args session =
      handle_continue_analysis env { args with user_response := some "" } session := by
  cases args
  simp only at h
  subst h
  rfl

/-- Witness for C8 (amended) at a concrete active session. -/
theorem missing_user_response_defaults_witness :
    (({} : ToolArgs)).user_response = none ∧
    handle_continue_analysis sampleEnv {} sessionAtStep1 =
      handle_continue_analysis sampleEnv { ({} : ToolArgs) with user_response := some "" }
        sessionAtStep1 :=
  ⟨rfl, missing_user_response_defaults sampleEnv {} sessionAtStep1 rfl⟩
/-- C9: on a numeric series with quartiles Q1 = quantile 0.25 and
Q3 = quantile 0.75 and IQR = Q3 − Q1, numeric_exploration counts a
value of the series as an outlier iff it is strictly below
Q1 − 1.5·IQR or strictly above Q3 + 1.5·IQR, and the reported bounds
are exactly those two expressions. -/
theorem iqr_outlier_iff (xs : List ℚ) (v : ℚ) (hv : v ∈ xs) :
    (v ∈ iqrOutliers xs ↔
      v < seriesQ1 xs - 1.5 * (seriesQ3 xs - seriesQ1 xs) ∨
      v > seriesQ3 xs + 1.5 * (seriesQ3 xs - seriesQ1 xs)) ∧
    (numericOutlierInfo xs).lower_bound =
      seriesQ1 xs - 1.5 * (seriesQ3 xs - seriesQ1 xs) ∧
    (numericOutlierInfo xs).upper_bound =
      seriesQ3 xs + 1.5 * (seriesQ3 xs - seriesQ1 xs) := by
  refine ⟨?_, rfl, rfl⟩
  unfold iqrOutliers iqrLowerBound iqrUpperBound
  rw [List.mem_filter]
  simp [hv]

/-- Witness for C9 on the series [1, 2, 3, 4, 100]: the engineered
extreme value 100 is flagged as an outlier. -/
theorem iqr_outlier_iff_witness :
    (100 : ℚ) ∈ [(1 : ℚ), 2, 3, 4, 100] ∧
    ((100 : ℚ) ∈ iqrOutliers [(1 : ℚ), 2, 3, 4, 100] ↔
      (100 : ℚ) < seriesQ1 [(1 : ℚ), 2, 3, 4, 100] -
        1.5 * (seriesQ3 [(1 : ℚ), 2, 3, 4, 100] - seriesQ1 [(1 : ℚ), 2, 3, 4, 100]) ∨
      (100 : ℚ) > seriesQ3 [(1 : ℚ), 2, 3, 4, 100] +
        1.5 * (seriesQ3 [(1 : ℚ), 2, 3, 4, 100] - seriesQ1 [(1 : ℚ), 2, 3, 4, 100])) := by
  refine ⟨by norm_num, ?_⟩
  exact (iqr_outlier_iff [(1 : ℚ), 2, 3, 4, 100] 100 (by norm_num)).1

/-- C10: on an existing file whose loaded dataset has fewer than 2
numeric columns, correlation_analysis returns exactly the
two-numeric-columns error payload. -/
theorem correlation_guard (env : Env) (args : ToolArgs) (d : Dataset)
    (hfile : env.fileExists (args.file_path.getD "") = true)
    (hload : env.loadData (args.file_path.getD "") = Except.ok d)
    (hcols : d.numericCols.length < 2) :
    handle_correlation_analysis env args =
      Json.obj [("error", Json.str "Need at least 2 numeric columns for correlation analysis")] := by
  unfold handle_correlation_analysis
  rw [if_neg (by simp [hfile]), hload]
  simp only [Except.bind]
  rw [if_pos hcols]

/-- Witness for C10: the sample dataset has exactly one numeric
column. -/
theorem correlation_guard_witness :
    sampleEnv.fileExists ((some "data.csv").getD "") = true ∧
    sampleEnv.loadData ((some "data.csv").getD "") = Except.ok sampleDataset ∧
    sampleDataset.numericCols.length < 2 ∧
    handle_correlation_analysis sampleEnv { file_path := some "data.csv" } =
      Json.obj [("error", Json.str "Need at least 2 numeric columns for correlation analysis")] :=
  ⟨rfl, rfl, by decide,
    correlation_guard sampleEnv { file_path := some "data.csv" } sampleDataset rfl rfl
      (by decide)⟩
